import Mathlib

/-!
Shallow embedding of the rankability forecast engine
(`src/backend/app/services/forecast_service.py` and
`src/backend/app/models/ml_model.py`) and proofs about it.

Python `float` values are modelled as `PyFloat` (a finite rational or NaN);
a Python value that may additionally be `None` is modelled as `PVal :=
Option PyFloat` with `none` standing for Python `None`.  Operations that can
raise a `TypeError` in Python (arithmetic or comparison on `None`,
`np.isnan(None)`) return `Except String _`.
-/

namespace RankPredict

/-- A Python float: either NaN or a finite rational.  (The code under study
never produces infinities: every division is guarded by a nonzero /
positive denominator check.) -/
inductive PyFloat where
  | nan : PyFloat
  | num : ℚ → PyFloat
deriving DecidableEq, Repr

/-- A Python value that is a float or `None` (`Option.none` = Python `None`). -/
abbrev PVal := Option PyFloat

/-- Python subtraction on floats: NaN propagates. -/
def PyFloat.sub : PyFloat → PyFloat → PyFloat
  | .num a, .num b => .num (a - b)
  | _, _ => .nan

/-- Python division of a float by a (nonzero) rational: NaN propagates. -/
def PyFloat.divBy : PyFloat → ℚ → PyFloat
  | .num a, d => .num (a / d)
  | .nan, _ => .nan

/-- Python `x >= c` on floats: any comparison with NaN is `False`. -/
def PyFloat.geQ (x : PyFloat) (c : ℚ) : Bool :=
  match x with
  | .num a => decide (c ≤ a)
  | .nan => false

/-- `True` iff the float is finite (not NaN). -/
def PyFloat.isNum : PyFloat → Bool
  | .num _ => true
  | .nan => false

/-- Number of maximal non-whitespace runs in a character list; the flag
records whether the previous character was inside a token. -/
def tokenCountAux : List Char → Bool → ℕ
  | [], _ => 0
  | c :: rest, inTok =>
    if c.isWhitespace then tokenCountAux rest false
    else (if inTok then 0 else 1) + tokenCountAux rest true

/-- `len(query.strip().split())` from the source: Python `str.split()` with
no argument splits on runs of whitespace and drops empty pieces (which also
makes the preceding `strip()` redundant), so the length is the number of
maximal non-whitespace runs. -/
def qTokenCount (q : String) : ℕ := tokenCountAux q.data false

/-- `forecast_service.py` lines 146-153: authority factor from the DT gap. -/
def dtFactor (gap : ℚ) : ℚ :=
  if gap ≥ 0 then 1
  else if gap > -10 then 85/100
  else if gap > -20 then 70/100
  else 50/100

/-- `forecast_service.py` lines 159-169: referring-domains factor from the ratio. -/
def refFactor (ratio : ℚ) : ℚ :=
  if ratio ≥ 1 then 1
  else if ratio ≥ 50/100 then 9/10
  else if ratio ≥ 20/100 then 75/100
  else if ratio ≥ 5/100 then 40/100
  else 20/100

/-- `forecast_service.py` lines 172-177: brand dominance factor. -/
def brandFactor (giant_brand_count : ℕ) : ℚ :=
  if giant_brand_count ≥ 4 then 40/100
  else if giant_brand_count ≥ 2 then 70/100
  else 1

/-- `forecast_service.py` lines 180-186: head-term factor from the token count. -/
def headFactor (q_tokens : ℕ) : ℚ :=
  if q_tokens ≤ 2 then 50/100
  else if q_tokens ≤ 3 then 80/100
  else 1

/-- `forecast_service.py` lines 142-153:
`if median_dt_serp is None or np.isnan(median_dt_serp) or np.isnan(my_dt)`
→ 1.0, else the gap-based factor.  `np.isnan(None)` raises `TypeError`,
reached only when `median_dt_serp` is an actual number. -/
def factorDt : PVal → PVal → Except String ℚ
  | Option.none, _ => .ok 1
  | some .nan, _ => .ok 1
  | some (.num _), Option.none => .error "TypeError"
  | some (.num _), some .nan => .ok 1
  | some (.num m), some (.num d) => .ok (dtFactor (d - m))

/-- `forecast_service.py` lines 156-169:
`if median_ref_serp is None or np.isnan(median_ref_serp) or
median_ref_serp <= 0 or np.isnan(my_ref)` → 1.0, else the ratio-based
factor; `np.isnan(my_ref)` is reached (and raises on `None`) only when the
median is a number `> 0`. -/
def factorRef : PVal → PVal → Except String ℚ
  | Option.none, _ => .ok 1
  | some .nan, _ => .ok 1
  | some (.num m), r =>
    if m ≤ 0 then .ok 1
    else
      match r with
      | Option.none => .error "TypeError"
      | some .nan => .ok 1
      | some (.num v) => .ok (refFactor (v / m))

/-- `forecast_service.py` lines 108-196, `calibrate_rank_probability`.
`raw_prob` of `None`/NaN returns 0.0 immediately; otherwise the four risk
factors are multiplied into the raw probability and the result is clamped
to `[0.01, 0.50]` via `max(min(calibrated, 0.50), 0.01)`. -/
def calibrate_rank_probability
    (raw_prob median_dt_serp median_ref_serp my_dt my_ref : PVal)
    (query : String) (giant_brand_count : ℕ) : Except String ℚ :=
  match raw_prob with
  | Option.none => .ok 0
  | some .nan => .ok 0
  | some (.num p) => do
    let factor_dt ← factorDt median_dt_serp my_dt
    let factor_ref ← factorRef median_ref_serp my_ref
    let factor_brand := brandFactor giant_brand_count
    let factor_head := headFactor (qTokenCount query)
    let comp_factor := factor_dt * factor_ref * factor_brand * factor_head
    let calibrated := p * comp_factor
    pure (max (min calibrated (50/100)) (1/100))

/-- `forecast_service.py` lines 199-215, `bucket_keyword_forecast_tier`.
Comparisons with NaN are `False` in Python, so every branch falls through
to `T4_NOT_WORTH_IT` on NaN input. -/
def bucket_keyword_forecast_tier (pct : PyFloat) : String :=
  if pct.geQ 20 then "T1_GO_NOW"
  else if pct.geQ 10 then "T2_STRATEGIC"
  else if pct.geQ 4 then "T3_LONG_GAME"
  else "T4_NOT_WORTH_IT"

/-! ## `ml_model.py`: safe_ratio and build_feature_vector

Python dicts of metrics are modelled as association lists whose values are
`PVal` (a key may be absent, or present with a float or `None` value). -/

/-- A Python metrics dict: keys mapped to float-or-`None` values. -/
abbrev MetricDict := List (String × PVal)

/-- First value stored under key `k`, if any. -/
def dictLookup (k : String) : MetricDict → Option PVal
  | [] => Option.none
  | (a, v) :: rest => if k = a then some v else dictLookup k rest

/-- `d.get(k, default)`: the stored value when the key is present, else the
(float) default. -/
def dictGet (d : MetricDict) (k : String) (default : ℚ) : PVal :=
  match dictLookup k d with
  | some v => v
  | Option.none => some (.num default)

/-- `ml_model.py` lines 14-23, `safe_ratio`: the denominator is checked for
`None` / `== 0` / NaN first, then the numerator for `None` / NaN; any such
case yields the default (the `try/except` around these explicit checks can
never fire for float-or-`None` inputs).  The result is always finite. -/
def safe_ratio (num den : PVal) (default : ℚ := 1) : ℚ :=
  match den with
  | Option.none => default
  | some .nan => default
  | some (.num d) =>
    if d = 0 then default
    else
      match num with
      | Option.none => default
      | some .nan => default
      | some (.num n) => n / d

/-- One gap feature, `ml_model.py` e.g. line 111:
`(user - top10) / top10 if top10 > 0 else 0.0`.  The guard `top10 > 0` is
evaluated first (`None` raises `TypeError`, NaN compares `False`); in the
positive branch `user - top10` raises on `None` and propagates NaN. -/
def gapFeature (user top10 : PVal) : Except String PyFloat :=
  match top10 with
  | Option.none => .error "TypeError"
  | some .nan => .ok (.num 0)
  | some (.num t) =>
    if 0 < t then
      match user with
      | Option.none => .error "TypeError"
      | some u => .ok ((u.sub (.num t)).divBy t)
    else .ok (.num 0)

/-- The 15 features of `ml_model.py` lines 107-141, in source order. -/
structure FeatureVector where
  dt_gap : PyFloat
  dt_ratio : PyFloat
  refdoms_gap : PyFloat
  refdoms_ratio : PyFloat
  wc_gap : PyFloat
  wc_ratio : PyFloat
  sent_count_gap : PyFloat
  awps_gap : PyFloat
  flesch_gap : PyFloat
  semantic_gap : PyFloat
  semantic_ratio : PyFloat
  internal_links_gap : PyFloat
  schema_total_gap : PyFloat
  schema_unique_gap : PyFloat
  rich_features_gap : PyFloat
deriving DecidableEq, Repr

/-- `True` iff every feature in the vector is finite (no NaN; the model has
no infinities at all, since every division in the source is guarded by a
nonzero / positive denominator). -/
def FeatureVector.allNum (fv : FeatureVector) : Bool :=
  fv.dt_gap.isNum && fv.dt_ratio.isNum && fv.refdoms_gap.isNum &&
  fv.refdoms_ratio.isNum && fv.wc_gap.isNum && fv.wc_ratio.isNum &&
  fv.sent_count_gap.isNum && fv.awps_gap.isNum && fv.flesch_gap.isNum &&
  fv.semantic_gap.isNum && fv.semantic_ratio.isNum &&
  fv.internal_links_gap.isNum && fv.schema_total_gap.isNum &&
  fv.schema_unique_gap.isNum && fv.rich_features_gap.isNum

/-- `True` iff the value is a number `≤ 0` or NaN (the "reference ≤ 0 or
NaN" condition of the spec; a `None` value is neither). -/
def nonposOrNan : PVal → Bool
  | some .nan => true
  | some (.num r) => decide (r ≤ 0)
  | Option.none => false

/-- `True` iff no value stored in the dict is Python `None`. -/
def noNoneVals (d : MetricDict) : Bool := d.all (fun kv => kv.2.isSome)

/-- The 11 reference keys read (with default 1) from `serp_medians` by
`build_feature_vector`. -/
def serpMedianKeys : List String :=
  ["dt", "referring_domains", "word_count", "sentence_count",
   "average_words_per_sentence", "flesch_reading_ease_score",
   "semantic_topic_score", "internal_links", "total_schema_types",
   "unique_schema_types", "rich_result_features"]

/-- `ml_model.py` lines 70-141, `MLModel.build_feature_vector`: reference
values are read with default 1, candidate values with default 0, then the
15 gap / ratio features are computed in source order (so a `TypeError`
surfaces at the first gap feature that touches a `None` value). -/
def build_feature_vector (user_metrics serp_medians : MetricDict) :
    Except String FeatureVector := do
  let top10_dt := dictGet serp_medians "dt" 1
  let top10_refdoms := dictGet serp_medians "referring_domains" 1
  let top10_wc := dictGet serp_medians "word_count" 1
  let top10_sent := dictGet serp_medians "sentence_count" 1
  let top10_awps := dictGet serp_medians "average_words_per_sentence" 1
  let top10_flesch := dictGet serp_medians "flesch_reading_ease_score" 1
  let top10_sem := dictGet serp_medians "semantic_topic_score" 1
  let top10_il := dictGet serp_medians "internal_links" 1
  let top10_schema_total := dictGet serp_medians "total_schema_types" 1
  let top10_schema_unique := dictGet serp_medians "unique_schema_types" 1
  let top10_rich := dictGet serp_medians "rich_result_features" 1
  let user_dt := dictGet user_metrics "domain_trust" 0
  let user_refdoms := dictGet user_metrics "referring_domains" 0
  let user_wc := dictGet user_metrics "word_count" 0
  let user_sent := dictGet user_metrics "sentence_count" 0
  let user_awps := dictGet user_metrics "average_words_per_sentence" 0
  let user_flesch := dictGet user_metrics "flesch_reading_ease_score" 0
  let user_sem := dictGet user_metrics "semantic_topic_score" 0
  let user_il := dictGet user_metrics "internal_links" 0
  let user_schema_total := dictGet user_metrics "total_schema_types" 0
  let user_schema_unique := dictGet user_metrics "unique_schema_types" 0
  let user_rich := dictGet user_metrics "rich_result_features" 0
  let dt_gap ← gapFeature user_dt top10_dt
  let dt_ratio := safe_ratio user_dt top10_dt
  let refdoms_gap ← gapFeature user_refdoms top10_refdoms
  let refdoms_ratio := safe_ratio user_refdoms top10_refdoms
  let wc_gap ← gapFeature user_wc top10_wc
  let wc_ratio := safe_ratio user_wc top10_wc
  let sent_count_gap ← gapFeature user_sent top10_sent
  let awps_gap ← gapFeature user_awps top10_awps
  let flesch_gap ← gapFeature user_flesch top10_flesch
  let semantic_gap ← gapFeature user_sem top10_sem
  let semantic_ratio := safe_ratio user_sem top10_sem
  let internal_links_gap ← gapFeature user_il top10_il
  let schema_total_gap ← gapFeature user_schema_total top10_schema_total
  let schema_unique_gap ← gapFeature user_schema_unique top10_schema_unique
  let rich_features_gap ← gapFeature user_rich top10_rich
  return {
    dt_gap := dt_gap, dt_ratio := .num dt_ratio,
    refdoms_gap := refdoms_gap, refdoms_ratio := .num refdoms_ratio,
    wc_gap := wc_gap, wc_ratio := .num wc_ratio,
    sent_count_gap := sent_count_gap, awps_gap := awps_gap,
    flesch_gap := flesch_gap, semantic_gap := semantic_gap,
    semantic_ratio := .num semantic_ratio,
    internal_links_gap := internal_links_gap,
    schema_total_gap := schema_total_gap,
    schema_unique_gap := schema_unique_gap,
    rich_features_gap := rich_features_gap }

/-! ## Prediction wrappers

The classifier itself is an external pickled artifact; its inference call
is modelled as a parameter of type `Except String ℚ` (`.error` = the
underlying `predict_proba` raised, `.ok p` = it returned probability `p`). -/

/-- `config.py`: `HIGH_THRESH = 0.60`. -/
def HIGH_THRESH : ℚ := 60/100

/-- `config.py`: `LOW_THRESH = 0.35`. -/
def LOW_THRESH : ℚ := 35/100

/-- Python `x or d` for an optional float argument: `None` and the falsy
value `0.0` both fall back to the default. -/
def orDefault (x : Option ℚ) (d : ℚ) : ℚ :=
  match x with
  | some v => if v = 0 then d else v
  | Option.none => d

/-- `ml_model.py` lines 26-35, `classify_opportunity`. -/
def classify_opportunity (p : ℚ) (high_thresh low_thresh : Option ℚ) : String :=
  let h := orDefault high_thresh HIGH_THRESH
  let l := orDefault low_thresh LOW_THRESH
  if p ≥ h then "HIGH"
  else if p ≥ l then "MEDIUM"
  else "LOW"

/-- Result type of `MLModel.predict_rankability`. -/
structure RankabilityResult where
  rankability_score : ℚ
  opportunity_tier : String
deriving DecidableEq, Repr

/-- `ml_model.py` lines 173-187 (`MLModel.predict_rankability`, inference
part): `try: probability = self.model.predict_proba(X)[0][1] ... except
Exception as e: raise ValueError(f"Model prediction failed: ...") from e`,
then the tier classification.  A failing inference call is re-raised as a
`ValueError`, never replaced by a default. -/
def predict_rankability_from_inference (inference : Except String ℚ) :
    Except String RankabilityResult :=
  match inference with
  | .error e => .error ("Model prediction failed: " ++ e)
  | .ok p =>
    .ok { rankability_score := p
          opportunity_tier := classify_opportunity p Option.none Option.none }

/-- `forecast_service.py` lines 415-423 (`get_raw_prob` inside
`ForecastService.forecast_keyword_rank_likelihood`): `try: return
float(self.model.model.predict_proba(X)[:, 1][0]) except Exception as e:
print(...); return 0.0` — a failing inference call is swallowed and the
default probability 0.0 is returned. -/
def get_raw_prob (inference : Except String ℚ) : ℚ :=
  match inference with
  | .ok p => p
  | .error _ => 0

/-! ## compute_client_forecast -/

/-- Round-half-to-even of a rational to an integer (Python's `round`). -/
def roundHalfEven (q : ℚ) : ℤ :=
  let f : ℤ := ⌊q⌋
  let r : ℚ := q - f
  if r < 1/2 then f
  else if 1/2 < r then f + 1
  else if f % 2 = 0 then f else f + 1

/-- Python `round(x, 1)`: round to one decimal place, ties to even. -/
def round1 (q : ℚ) : ℚ := (roundHalfEven (10 * q) : ℚ) / 10

/-- Result triple of `ForecastService.compute_client_forecast`. -/
structure ClientForecast where
  forecast_pct : ℚ
  tier : String
  recommendation : String
deriving DecidableEq, Repr

/-- `forecast_service.py` lines 620-694,
`ForecastService.compute_client_forecast`: weighted blend of win score,
domain fit and intent fit; difficulty adjustment when supplied; volume
bonus only when `search_volume is not None and search_volume > 1000`;
clamp to `[0, 100]`; tier by thresholds on the clamped (unrounded) value;
the returned percentage is rounded to one decimal. -/
def compute_client_forecast (win_score domain_fit intent_fit : ℚ)
    (keyword_difficulty : Option ℚ) (search_volume : Option ℤ) :
    ClientForecast :=
  let win_score_pct := win_score * 100
  let base0 := win_score_pct * (40/100) + domain_fit * (35/100) +
    intent_fit * (25/100)
  let base1 :=
    match keyword_difficulty with
    | some kd => base0 + (50 - kd) * (1/10)
    | Option.none => base0
  let base2 :=
    match search_volume with
    | some v => if v > 1000 then base1 + min 5 ((v : ℚ) / 2000) else base1
    | Option.none => base1
  let forecast_pct := max 0 (min 100 base2)
  let tier_rec :=
    if forecast_pct ≥ 70 then
      ("HIGH_PRIORITY",
       "Strong opportunity - prioritize this keyword for content creation")
    else if forecast_pct ≥ 50 then
      ("GOOD_FIT",
       "Good opportunity - include in content strategy with proper optimization")
    else if forecast_pct ≥ 35 then
      ("CONSIDER",
       "Moderate opportunity - consider if strategically important or low competition")
    else if forecast_pct ≥ 20 then
      ("LONG_TERM",
       "Challenging opportunity - better suited for long-term authority building")
    else
      ("NOT_RECOMMENDED",
       "Poor fit - focus efforts elsewhere unless strategically critical")
  let recommendation :=
    if domain_fit < 30 ∧ intent_fit ≥ 60 then
      tier_rec.2 ++ ". Note: Good topical fit but authority gap - consider link building."
    else if intent_fit < 30 ∧ domain_fit ≥ 60 then
      tier_rec.2 ++ ". Note: Strong authority but weak topical relevance - ensure content alignment."
    else if win_score < 30/100 ∧ domain_fit ≥ 50 ∧ intent_fit ≥ 50 then
      tier_rec.2 ++ ". Note: Competitive SERP - differentiate with unique content angle."
    else tier_rec.2
  { forecast_pct := round1 forecast_pct
    tier := tier_rec.1
    recommendation := recommendation }

/-- The percentage formula of claim C7, written from the spec's words (for
comparison with `compute_client_forecast`): the volume bonus
`min(5, volume/2000)` is applied *whenever* a search volume is supplied. -/
def client_forecast_pct_claimed (win_score domain_fit intent_fit : ℚ)
    (keyword_difficulty : Option ℚ) (search_volume : Option ℤ) : ℚ :=
  let base0 := win_score * 100 * (40/100) + domain_fit * (35/100) +
    intent_fit * (25/100)
  let base1 :=
    match keyword_difficulty with
    | some kd => base0 + (50 - kd) * (1/10)
    | Option.none => base0
  let base2 :=
    match search_volume with
    | some v => base1 + min 5 ((v : ℚ) / 2000)
    | Option.none => base1
  round1 (max 0 (min 100 base2))

/-- The additive form of the blend actually computed by the code (used to
state the amended claim C7). -/
def client_forecast_blend (win_score domain_fit intent_fit : ℚ)
    (keyword_difficulty : Option ℚ) (search_volume : Option ℤ) : ℚ :=
  win_score * 100 * (40/100) + domain_fit * (35/100) + intent_fit * (25/100)
  + (match keyword_difficulty with
     | some kd => (50 - kd) * (1/10)
     | Option.none => 0)
  + (match search_volume with
     | some v => if v > 1000 then min 5 ((v : ℚ) / 2000) else 0
     | Option.none => 0)

/-- The tier thresholds of `compute_client_forecast` (lines 670-684) as a
function of the clamped percentage, for stating the tier part of C7. -/
def client_tier_of (F : ℚ) : String :=
  if F ≥ 70 then "HIGH_PRIORITY"
  else if F ≥ 50 then "GOOD_FIT"
  else if F ≥ 35 then "CONSIDER"
  else if F ≥ 20 then "LONG_TERM"
  else "NOT_RECOMMENDED"

/-! ## forecast_keyword_rank_likelihood: the empty-SERP guard -/

/-- One enriched SERP result; only the `url` key matters for the claims
(the remaining metric keys are read with `.get(..., default)` downstream). -/
structure SerpResult where
  url : Option String
deriving DecidableEq, Repr

/-- The early-return dict of `forecast_service.py` lines 352-358. -/
structure ZeroForecastResult where
  keyword : String
  baseline_median_pct : ℚ
  weaker_25th_pct : ℚ
  stronger_75th_pct : ℚ
  errorMarker : String
deriving DecidableEq, Repr

/-- Outcome of the guard at the top of
`ForecastService.forecast_keyword_rank_likelihood`: either the zero
forecast early return, or the computation proceeds with a non-empty
`top10` (the rest of the function calls the external classifier and
network services and is out of scope of the claims). -/
inductive ForecastDispatch where
  | noData (r : ZeroForecastResult)
  | proceeds (top10 : List SerpResult)
deriving DecidableEq, Repr

/-- `forecast_service.py` lines 348-358: `top10 = enriched_results[:10] if
len(enriched_results) >= 10 else enriched_results`; `if not top10:` return
the zero-forecast dict with `"error": "No SERP results available"`. -/
def forecast_keyword_rank_likelihood_dispatch (keyword : String)
    (enriched_results : List SerpResult) : ForecastDispatch :=
  let top10 :=
    if enriched_results.length ≥ 10 then enriched_results.take 10
    else enriched_results
  if top10.isEmpty then
    .noData { keyword := keyword, baseline_median_pct := 0,
              weaker_25th_pct := 0, stronger_75th_pct := 0,
              errorMarker := "No SERP results available" }
  else .proceeds top10

/-! ## extract_domain and count_giant_brands -/

/-- `forecast_service.py` lines 23-29: the giant-brand domain denylist. -/
def GIANT_DOMAINS : List String := [
  "google.com", "support.google.com", "developers.google.com",
  "wikipedia.org", "youtube.com",
  "amazon.com", "linkedin.com", "facebook.com", "instagram.com",
  "hubspot.com", "semrush.com", "ahrefs.com", "moz.com",
  "shopify.com", "mailchimp.com", "salesforce.com"]

/-- `needle` matches `hay` character by character at the head. -/
def matchesAt : List Char → List Char → Bool
  | [], _ => true
  | _ :: _, [] => false
  | a :: as, b :: bs => a == b && matchesAt as bs

/-- Python substring test `needle in hay` on character lists. -/
def hasSub (needle : List Char) : List Char → Bool
  | [] => needle.isEmpty
  | c :: rest => matchesAt needle (c :: rest) || hasSub needle rest

/-- Python `g in d` substring containment on strings. -/
def strContains (hay needle : String) : Bool := hasSub needle.data hay.data

/-- A character allowed in a URL scheme (letters, digits, `+`, `-`, `.`). -/
def schemeChar (c : Char) : Bool := c.isAlphanum || c == '+' || c == '-' || c == '.'

/-- Split a character list at the first `:` (the part before, the part
after), or `none` when there is no colon. -/
def splitColon : List Char → Option (List Char × List Char)
  | [] => Option.none
  | c :: rest =>
    if c = ':' then some ([], rest)
    else (splitColon rest).map (fun p => (c :: p.1, p.2))

/-- `urllib.parse.urlparse` scheme removal: a leading `scheme:` is dropped
when the part before the first colon is non-empty, begins with a letter,
and consists of scheme characters only; otherwise the URL is unchanged. -/
def dropScheme (s : List Char) : List Char :=
  match splitColon s with
  | some (pre, rest) =>
    match pre with
    | [] => s
    | c :: _ => if c.isAlpha && pre.all schemeChar then rest else s
  | Option.none => s

/-- `urllib.parse.urlparse(url).netloc` for ordinary URLs: after removing
the scheme, a netloc exists only when the remainder begins with `//` and
extends to the next `/`, `?` or `#` (control-character stripping and
bracketed-IPv6 validation of the stdlib are elided — the repository only
feeds it ordinary result URLs, and `extract_domain` swallows any parse
error anyway). -/
def netlocOf (s : List Char) : List Char :=
  match dropScheme s with
  | '/' :: '/' :: r => r.takeWhile (fun c => !(c == '/' || c == '?' || c == '#'))
  | _ => []

/-- `forecast_service.py` lines 269-275, `extract_domain`: the URL netloc
with a leading `www.` stripped (`netloc[4:] if netloc.startswith("www.")
else netloc`); any parse failure yields `""` (the model is total, so the
`except` branch has no separate representation). -/
def extract_domain (url : String) : String :=
  match netlocOf url.data with
  | 'w' :: 'w' :: 'w' :: '.' :: rest => String.mk rest
  | netloc => String.mk netloc

/-- Python `str.lower()` (character-wise lowercasing). -/
def strLower (s : String) : String := String.mk (s.data.map Char.toLower)

/-- `forecast_service.py` lines 95-105, `count_giant_brands`: collect the
lower-cased non-empty domains of all results, then count those containing
any denylist entry as a substring. -/
def count_giant_brands (enriched_results : List SerpResult) : ℕ :=
  let domains := enriched_results.filterMap (fun result =>
    let url := result.url.getD ""
    let domain := extract_domain url
    if domain ≠ "" then some (strLower domain) else Option.none)
  (domains.filter (fun d => GIANT_DOMAINS.any (fun g => strContains d g))).length

end RankPredict

deriving instance DecidableEq for Except

namespace RankPredict

/-! ## Helper lemmas on the calibration factors -/

theorem dtFactor_pos (g : ℚ) : 0 < dtFactor g := by
  unfold dtFactor; split_ifs <;> norm_num

theorem dtFactor_le_one (g : ℚ) : dtFactor g ≤ 1 := by
  unfold dtFactor; split_ifs <;> norm_num

theorem dtFactor_mono {g1 g2 : ℚ} (h : g1 ≤ g2) : dtFactor g1 ≤ dtFactor g2 := by
  unfold dtFactor
  split_ifs <;> linarith

theorem refFactor_pos (x : ℚ) : 0 < refFactor x := by
  unfold refFactor; split_ifs <;> norm_num

theorem refFactor_le_one (x : ℚ) : refFactor x ≤ 1 := by
  unfold refFactor; split_ifs <;> norm_num

theorem brandFactor_pos (c : ℕ) : 0 < brandFactor c := by
  unfold brandFactor; split_ifs <;> norm_num

theorem headFactor_pos (n : ℕ) : 0 < headFactor n := by
  unfold headFactor; split_ifs <;> norm_num

theorem factorDt_ok_pos {m1 d : PVal} {f : ℚ} (h : factorDt m1 d = .ok f) :
    0 < f := by
  cases m1 with
  | none => simp [factorDt] at h; subst h; norm_num
  | some mf =>
    cases mf with
    | nan => simp [factorDt] at h; subst h; norm_num
    | num m =>
      cases d with
      | none => simp [factorDt] at h
      | some df =>
        cases df with
        | nan => simp [factorDt] at h; subst h; norm_num
        | num v => simp [factorDt] at h; subst h; exact dtFactor_pos _

theorem factorRef_ok_pos {m2 r : PVal} {f : ℚ} (h : factorRef m2 r = .ok f) :
    0 < f := by
  cases m2 with
  | none => simp [factorRef] at h; subst h; norm_num
  | some mf =>
    cases mf with
    | nan => simp [factorRef] at h; subst h; norm_num
    | num m =>
      by_cases hm : m ≤ 0
      · simp [factorRef, hm] at h; subst h; norm_num
      · cases r with
        | none => simp [factorRef, hm] at h
        | some rf =>
          cases rf with
          | nan => simp [factorRef, hm] at h; subst h; norm_num
          | num v => simp [factorRef, hm] at h; subst h; exact refFactor_pos _

/-- Shape of `calibrate_rank_probability` on a numeric raw probability. -/
theorem calibrate_num_ok_iff (p : ℚ) (m1 m2 d r : PVal) (q : String) (c : ℕ)
    (out : ℚ) :
    calibrate_rank_probability (some (.num p)) m1 m2 d r q c = .ok out ↔
    ∃ f1 f2, factorDt m1 d = .ok f1 ∧ factorRef m2 r = .ok f2 ∧
      out = max (min (p * (f1 * f2 * brandFactor c * headFactor (qTokenCount q)))
        (50/100)) (1/100) := by
  rcases hf1 : factorDt m1 d with e1 | f1 <;>
    rcases hf2 : factorRef m2 r with e2 | f2 <;>
      simp [calibrate_rank_probability, hf1, hf2, bind, Except.bind, pure,
        Except.pure, eq_comm]

/-- C1: for every non-`None`, non-NaN raw probability, whenever
`calibrate_rank_probability` returns it returns a value in `[0.01, 0.50]`;
with all four factors neutral (own authority at least the reference
authority, backlink ratio at least 1, fewer than 2 giant brands, 4 or more
query tokens) a raw probability of 1.0 yields exactly 0.50; and any input
whose product of raw probability and factors falls below 0.01 yields
exactly 0.01. -/
theorem calibrate_rank_probability_range_and_clamps :
    (∀ (p : ℚ) (m1 m2 d r : PVal) (q : String) (c : ℕ) (out : ℚ),
      calibrate_rank_probability (some (.num p)) m1 m2 d r q c = .ok out →
      1/100 ≤ out ∧ out ≤ 50/100)
    ∧ (∀ (m br a rr : ℚ) (q : String) (c : ℕ),
      m ≤ a → 0 < br → 1 ≤ rr / br → c < 2 → 4 ≤ qTokenCount q →
      calibrate_rank_probability (some (.num 1)) (some (.num m)) (some (.num br))
        (some (.num a)) (some (.num rr)) q c = .ok (50/100))
    ∧ (∀ (p : ℚ) (m1 m2 d r : PVal) (q : String) (c : ℕ) (f1 f2 : ℚ),
      factorDt m1 d = .ok f1 → factorRef m2 r = .ok f2 →
      p * (f1 * f2 * brandFactor c * headFactor (qTokenCount q)) < 1/100 →
      calibrate_rank_probability (some (.num p)) m1 m2 d r q c = .ok (1/100)) := by
  refine ⟨?_, ?_, ?_⟩
  · intro p m1 m2 d r q c out h
    obtain ⟨f1, f2, _, _, hout⟩ := (calibrate_num_ok_iff p m1 m2 d r q c out).mp h
    subst hout
    refine ⟨le_max_right _ _, max_le (min_le_right _ _) (by norm_num)⟩
  · intro m br a rr q c hma hbr hratio hc hq
    have h1 : factorDt (some (.num m)) (some (.num a)) = .ok 1 := by
      have : dtFactor (a - m) = 1 := by
        unfold dtFactor; rw [if_pos (by linarith)]
      simp [factorDt, this]
    have h2 : factorRef (some (.num br)) (some (.num rr)) = .ok 1 := by
      have : refFactor (rr / br) = 1 := by
        unfold refFactor; rw [if_pos hratio]
      simp [factorRef, not_le.mpr hbr, this]
    have h3 : brandFactor c = 1 := by
      unfold brandFactor; rw [if_neg (by omega), if_neg (by omega)]
    have h4 : headFactor (qTokenCount q) = 1 := by
      unfold headFactor; rw [if_neg (by omega), if_neg (by omega)]
    refine (calibrate_num_ok_iff 1 _ _ _ _ q c _).mpr ⟨1, 1, h1, h2, ?_⟩
    rw [h3, h4]; norm_num
  · intro p m1 m2 d r q c f1 f2 hf1 hf2 hsmall
    refine (calibrate_num_ok_iff p m1 m2 d r q c _).mpr ⟨f1, f2, hf1, hf2, ?_⟩
    rw [min_eq_left (by linarith), max_eq_right (by linarith)]

/-- Witness for C1 at concrete inputs: a 4-token query, own authority 40
vs reference 30, backlinks 20 vs 10, no giant brands; raw probability 1
calibrates to exactly 0.50 (which lies in the range), and raw probability
0.001 clamps to exactly 0.01. -/
theorem calibrate_rank_probability_range_and_clamps_witness :
    calibrate_rank_probability (some (.num 1)) (some (.num 30)) (some (.num 10))
      (some (.num 40)) (some (.num 20)) "alpha beta gamma delta" 0 = .ok (50/100)
    ∧ (1/100 ≤ (50/100 : ℚ) ∧ (50/100 : ℚ) ≤ 50/100)
    ∧ calibrate_rank_probability (some (.num (1/1000))) (some (.num 30))
      (some (.num 10)) (some (.num 40)) (some (.num 20))
      "alpha beta gamma delta" 0 = .ok (1/100) := by
  have htok : qTokenCount "alpha beta gamma delta" = 4 := by decide
  have h2 := calibrate_rank_probability_range_and_clamps.2.1 30 10 40 20
    "alpha beta gamma delta" 0 (by norm_num) (by norm_num) (by norm_num)
    (by norm_num) (by rw [htok])
  have h1 := calibrate_rank_probability_range_and_clamps.1 1 _ _ _ _
    "alpha beta gamma delta" 0 _ h2
  have h3 := calibrate_rank_probability_range_and_clamps.2.2 (1/1000)
    (some (.num 30)) (some (.num 10)) (some (.num 40)) (some (.num 20))
    "alpha beta gamma delta" 0 1 1
    (by norm_num [factorDt, dtFactor])
    (by norm_num [factorRef, refFactor])
    (by rw [htok]; norm_num [brandFactor, headFactor])
  exact ⟨h2, h1, h3⟩

/-- C2: calibration is monotone in own authority: with a numeric raw
probability and all other arguments fixed, if both calls return then the
result at the smaller own-authority value is at most the result at the
larger one. -/
theorem calibrate_rank_probability_mono_own_authority
    (p a1 a2 : ℚ) (m1 m2 r : PVal) (q : String) (c : ℕ) (r1 r2 : ℚ)
    (ha : a1 ≤ a2)
    (h1 : calibrate_rank_probability (some (.num p)) m1 m2 (some (.num a1)) r q c
      = .ok r1)
    (h2 : calibrate_rank_probability (some (.num p)) m1 m2 (some (.num a2)) r q c
      = .ok r2) :
    r1 ≤ r2 := by
  obtain ⟨f1, f2, hf1, hf2, hout1⟩ :=
    (calibrate_num_ok_iff p m1 m2 _ r q c r1).mp h1
  obtain ⟨g1, g2, hg1, hg2, hout2⟩ :=
    (calibrate_num_ok_iff p m1 m2 _ r q c r2).mp h2
  have hfg2 : f2 = g2 := by rw [hf2] at hg2; exact Except.ok.inj hg2
  subst hfg2
  have hle : f1 ≤ g1 := by
    cases m1 with
    | none =>
      simp [factorDt] at hf1 hg1; subst hf1; subst hg1; exact le_refl _
    | some mf =>
      cases mf with
      | nan => simp [factorDt] at hf1 hg1; subst hf1; subst hg1; exact le_refl _
      | num m =>
        simp [factorDt] at hf1 hg1
        subst hf1; subst hg1
        exact dtFactor_mono (by linarith)
  have hpos1 : 0 < f1 := factorDt_ok_pos hf1
  have hpos2 : 0 < g1 := factorDt_ok_pos hg1
  have hposf2 : 0 < f2 := factorRef_ok_pos hf2
  have hK : 0 < f2 * brandFactor c * headFactor (qTokenCount q) :=
    mul_pos (mul_pos hposf2 (brandFactor_pos c)) (headFactor_pos _)
  subst hout1; subst hout2
  rcases le_or_lt 0 p with hp | hp
  · have hmul : p * (f1 * (f2 * brandFactor c * headFactor (qTokenCount q))) ≤
        p * (g1 * (f2 * brandFactor c * headFactor (qTokenCount q))) := by
      apply mul_le_mul_of_nonneg_left _ hp
      exact mul_le_mul_of_nonneg_right hle (le_of_lt hK)
    have hmul2 : p * (f1 * f2 * brandFactor c * headFactor (qTokenCount q)) ≤
        p * (g1 * f2 * brandFactor c * headFactor (qTokenCount q)) := by
      calc p * (f1 * f2 * brandFactor c * headFactor (qTokenCount q))
          = p * (f1 * (f2 * brandFactor c * headFactor (qTokenCount q))) := by ring
        _ ≤ p * (g1 * (f2 * brandFactor c * headFactor (qTokenCount q))) := hmul
        _ = p * (g1 * f2 * brandFactor c * headFactor (qTokenCount q)) := by ring
    exact max_le_max_right _ (min_le_min_right _ hmul2)
  · have hx1 : p * (f1 * f2 * brandFactor c * headFactor (qTokenCount q)) < 0 :=
      mul_neg_of_neg_of_pos hp
        (mul_pos (mul_pos (mul_pos hpos1 hposf2) (brandFactor_pos c)) (headFactor_pos _))
    have hx2 : p * (g1 * f2 * brandFactor c * headFactor (qTokenCount q)) < 0 :=
      mul_neg_of_neg_of_pos hp
        (mul_pos (mul_pos (mul_pos hpos2 hposf2) (brandFactor_pos c)) (headFactor_pos _))
    rw [min_eq_left (by linarith), max_eq_right (by linarith),
      min_eq_left (by linarith), max_eq_right (by linarith)]

/-- Witness for C2: with raw probability 0.5, raising own authority from
15 to 40 (reference 30) moves the calibrated probability from 0.35 to
0.50. -/
theorem calibrate_rank_probability_mono_own_authority_witness :
    calibrate_rank_probability (some (.num (1/2))) (some (.num 30)) (some (.num 10))
      (some (.num 15)) (some (.num 20)) "alpha beta gamma delta" 0 = .ok (35/100)
    ∧ calibrate_rank_probability (some (.num (1/2))) (some (.num 30)) (some (.num 10))
      (some (.num 40)) (some (.num 20)) "alpha beta gamma delta" 0 = .ok (1/2)
    ∧ (35/100 : ℚ) ≤ 1/2 := by
  have htok : qTokenCount "alpha beta gamma delta" = 4 := by decide
  have hlow : calibrate_rank_probability (some (.num (1/2))) (some (.num 30))
      (some (.num 10)) (some (.num 15)) (some (.num 20))
      "alpha beta gamma delta" 0 = .ok (35/100) := by
    simp only [calibrate_rank_probability, factorDt, factorRef, bind,
      Except.bind, pure, Except.pure, htok]
    norm_num [dtFactor, refFactor, brandFactor, headFactor]
  have hhigh : calibrate_rank_probability (some (.num (1/2))) (some (.num 30))
      (some (.num 10)) (some (.num 40)) (some (.num 20))
      "alpha beta gamma delta" 0 = .ok (1/2) := by
    simp only [calibrate_rank_probability, factorDt, factorRef, bind,
      Except.bind, pure, Except.pure, htok]
    norm_num [dtFactor, refFactor, brandFactor, headFactor]
  exact ⟨hlow, hhigh,
    calibrate_rank_probability_mono_own_authority (1/2) 15 40 (some (.num 30))
      (some (.num 10)) (some (.num 20)) "alpha beta gamma delta" 0 (35/100) (1/2)
      (by norm_num) hlow hhigh⟩

/-- C5 counterexample: in `ForecastService.forecast_keyword_rank_likelihood`
(lines 415-423) a failing classifier inference call is NOT propagated — the
`get_raw_prob` helper catches the exception and hands the caller the
silently substituted default probability 0.0. -/
theorem get_raw_prob_swallows_failure_counterexample :
    get_raw_prob (Except.error "predict_proba failed") = 0 := rfl

/-- C5 amended: `MLModel.predict_rankability` does propagate a failing
inference call as a `ValueError` ("Model prediction failed: ...") and never
substitutes a default; but the raw-probability helper inside
`ForecastService.forecast_keyword_rank_likelihood` catches the failure and
returns the default 0.0 instead. -/
theorem prediction_error_propagation_amended :
    (∀ e : String, predict_rankability_from_inference (.error e) =
      .error ("Model prediction failed: " ++ e))
    ∧ (∀ p : ℚ, ∃ res, predict_rankability_from_inference (.ok p) = .ok res ∧
        res.rankability_score = p)
    ∧ (∀ e : String, get_raw_prob (.error e) = 0) :=
  ⟨fun _ => rfl, fun _ => ⟨_, rfl, rfl⟩, fun _ => rfl⟩

/-- C6: the tier thresholds of `bucket_keyword_forecast_tier` are closed at
the boundary: `pct ≥ 20` yields T1_GO_NOW (20.0 exactly included, 19.9999
is STRATEGIC), `10 ≤ pct < 20` yields T2_STRATEGIC (10.0 exactly
included), `4 ≤ pct < 10` yields T3_LONG_GAME (4.0 exactly included), and
`pct < 4` yields T4_NOT_WORTH_IT. -/
theorem bucket_keyword_forecast_tier_boundaries :
    (∀ q : ℚ, 20 ≤ q → bucket_keyword_forecast_tier (.num q) = "T1_GO_NOW")
    ∧ (∀ q : ℚ, 10 ≤ q → q < 20 →
        bucket_keyword_forecast_tier (.num q) = "T2_STRATEGIC")
    ∧ (∀ q : ℚ, 4 ≤ q → q < 10 →
        bucket_keyword_forecast_tier (.num q) = "T3_LONG_GAME")
    ∧ (∀ q : ℚ, q < 4 → bucket_keyword_forecast_tier (.num q) = "T4_NOT_WORTH_IT")
    ∧ bucket_keyword_forecast_tier (.num 20) = "T1_GO_NOW"
    ∧ bucket_keyword_forecast_tier (.num (199999/10000)) = "T2_STRATEGIC"
    ∧ bucket_keyword_forecast_tier (.num 10) = "T2_STRATEGIC"
    ∧ bucket_keyword_forecast_tier (.num 4) = "T3_LONG_GAME" := by
  have hT1 : ∀ q : ℚ, 20 ≤ q →
      bucket_keyword_forecast_tier (.num q) = "T1_GO_NOW" := by
    intro q h
    simp [bucket_keyword_forecast_tier, PyFloat.geQ, h]
  have hT2 : ∀ q : ℚ, 10 ≤ q → q < 20 →
      bucket_keyword_forecast_tier (.num q) = "T2_STRATEGIC" := by
    intro q h1 h2
    simp [bucket_keyword_forecast_tier, PyFloat.geQ, h1, not_le.mpr h2]
  have hT3 : ∀ q : ℚ, 4 ≤ q → q < 10 →
      bucket_keyword_forecast_tier (.num q) = "T3_LONG_GAME" := by
    intro q h1 h2
    simp [bucket_keyword_forecast_tier, PyFloat.geQ, h1, not_le.mpr h2,
      not_le.mpr (lt_trans h2 (by norm_num : (10:ℚ) < 20))]
  have hT4 : ∀ q : ℚ, q < 4 →
      bucket_keyword_forecast_tier (.num q) = "T4_NOT_WORTH_IT" := by
    intro q h
    simp [bucket_keyword_forecast_tier, PyFloat.geQ, not_le.mpr h,
      not_le.mpr (lt_trans h (by norm_num : (4:ℚ) < 10)),
      not_le.mpr (lt_trans h (by norm_num : (4:ℚ) < 20))]
  exact ⟨hT1, hT2, hT3, hT4, hT1 20 le_rfl,
    hT2 (199999/10000) (by norm_num) (by norm_num),
    hT2 10 le_rfl (by norm_num), hT3 4 le_rfl (by norm_num)⟩

/-- Witness for C6 at concrete percentages 25, 15, 7 and 2. -/
theorem bucket_keyword_forecast_tier_boundaries_witness :
    bucket_keyword_forecast_tier (.num 25) = "T1_GO_NOW"
    ∧ bucket_keyword_forecast_tier (.num 15) = "T2_STRATEGIC"
    ∧ bucket_keyword_forecast_tier (.num 7) = "T3_LONG_GAME"
    ∧ bucket_keyword_forecast_tier (.num 2) = "T4_NOT_WORTH_IT" :=
  ⟨bucket_keyword_forecast_tier_boundaries.1 25 (by norm_num),
   bucket_keyword_forecast_tier_boundaries.2.1 15 (by norm_num) (by norm_num),
   bucket_keyword_forecast_tier_boundaries.2.2.1 7 (by norm_num) (by norm_num),
   bucket_keyword_forecast_tier_boundaries.2.2.2.1 2 (by norm_num)⟩

/-- C9: `bucket_keyword_forecast_tier` is total over all Python floats
(NaN included): the result is always one of the four tier strings, NaN
maps to T4_NOT_WORTH_IT (every `>=` comparison with NaN is `False`), and
so does every negative percentage. -/
theorem bucket_keyword_forecast_tier_total :
    (∀ p : PyFloat,
      bucket_keyword_forecast_tier p = "T1_GO_NOW"
      ∨ bucket_keyword_forecast_tier p = "T2_STRATEGIC"
      ∨ bucket_keyword_forecast_tier p = "T3_LONG_GAME"
      ∨ bucket_keyword_forecast_tier p = "T4_NOT_WORTH_IT")
    ∧ bucket_keyword_forecast_tier .nan = "T4_NOT_WORTH_IT"
    ∧ (∀ q : ℚ, q < 0 →
        bucket_keyword_forecast_tier (.num q) = "T4_NOT_WORTH_IT") := by
  refine ⟨?_, rfl, ?_⟩
  · intro p
    unfold bucket_keyword_forecast_tier
    split_ifs <;> simp
  · intro q h
    simp [bucket_keyword_forecast_tier, PyFloat.geQ, not_le.mpr h,
      not_le.mpr (lt_trans h (by norm_num : (0:ℚ) < 4)),
      not_le.mpr (lt_trans h (by norm_num : (0:ℚ) < 10)),
      not_le.mpr (lt_trans h (by norm_num : (0:ℚ) < 20))]

/-- Witness for C9: percentage -5 maps to T4_NOT_WORTH_IT. -/
theorem bucket_keyword_forecast_tier_total_witness :
    bucket_keyword_forecast_tier (.num (-5)) = "T4_NOT_WORTH_IT" :=
  bucket_keyword_forecast_tier_total.2.2 (-5) (by norm_num)

/-- C8: with an empty enriched-results list the forecast does not raise:
it takes the early return with every forecast percentage equal to 0.0 and
the explicit no-data marker "No SERP results available". -/
theorem forecast_empty_serp_zero_result (keyword : String) :
    forecast_keyword_rank_likelihood_dispatch keyword [] =
      .noData { keyword := keyword, baseline_median_pct := 0,
                weaker_25th_pct := 0, stronger_75th_pct := 0,
                errorMarker := "No SERP results available" } := rfl

/-- C7 counterexample: the claim applies the volume bonus whenever a search
volume is supplied, but the code requires `search_volume > 1000`.  With all
scores 0, no difficulty and volume 500 the claim formula gives
`round(min(5, 500/2000), 1) = 0.2` while the code gives 0.0. -/
theorem compute_client_forecast_volume_counterexample :
    (compute_client_forecast 0 0 0 Option.none (some 500)).forecast_pct = 0
    ∧ client_forecast_pct_claimed 0 0 0 Option.none (some 500) = 1/5
    ∧ (0 : ℚ) ≠ 1/5 := by
  refine ⟨?_, ?_, by norm_num⟩
  · norm_num [compute_client_forecast, round1, roundHalfEven, Int.floor_eq_iff]
  · norm_num [client_forecast_pct_claimed, round1, roundHalfEven,
      Int.floor_eq_iff]

/-- C7 amended: `compute_client_forecast` returns the rounded clamp of the
weighted blend `win*100*0.40 + domain_fit*0.35 + intent_fit*0.25`, plus
`(50 - difficulty)*0.1` when a difficulty is supplied, plus the volume
bonus `min(5, volume/2000)` only when the supplied volume exceeds 1000;
the tier comes from the thresholds 70/50/35/20 on the clamped (unrounded)
percentage. -/
theorem compute_client_forecast_amended
    (w d i : ℚ) (kd : Option ℚ) (v : Option ℤ) :
    (compute_client_forecast w d i kd v).forecast_pct =
      round1 (max 0 (min 100 (client_forecast_blend w d i kd v)))
    ∧ (compute_client_forecast w d i kd v).tier =
      client_tier_of (max 0 (min 100 (client_forecast_blend w d i kd v))) := by
  cases kd with
  | none =>
    cases v with
    | none =>
      simp only [compute_client_forecast, client_forecast_blend,
        client_tier_of, add_zero]
      refine ⟨by first | rfl | trivial, ?_⟩
      first | trivial | (split_ifs <;> rfl)
    | some vol =>
      by_cases hv : vol > 1000 <;>
        simp only [compute_client_forecast, client_forecast_blend,
          client_tier_of, add_zero, hv, if_true, if_false, ite_true,
          ite_false, eq_self_iff_true, not_true, not_false_iff] <;>
        (refine ⟨by first | rfl | trivial, ?_⟩
         first | trivial | (split_ifs <;> rfl))
  | some k =>
    cases v with
    | none =>
      simp only [compute_client_forecast, client_forecast_blend,
        client_tier_of, add_zero]
      refine ⟨by first | rfl | trivial, ?_⟩
      first | trivial | (split_ifs <;> rfl)
    | some vol =>
      by_cases hv : vol > 1000 <;>
        simp only [compute_client_forecast, client_forecast_blend,
          client_tier_of, add_zero, hv, if_true, if_false, ite_true,
          ite_false, eq_self_iff_true, not_true, not_false_iff] <;>
        (refine ⟨by first | rfl | trivial, ?_⟩
         first | trivial | (split_ifs <;> rfl))

/-! ## Helper lemmas on build_feature_vector -/

theorem gapFeature_nonposOrNan {t : PVal} (u : PVal)
    (h : nonposOrNan t = true) : gapFeature u t = .ok (.num 0) := by
  cases t with
  | none => simp [nonposOrNan] at h
  | some tf =>
    cases tf with
    | nan => rfl
    | num r =>
      simp only [nonposOrNan, decide_eq_true_eq] at h
      simp [gapFeature, not_lt.mpr h]

theorem gapFeature_some_eq {u : PVal} {rq : ℚ} (hr : 0 < rq) (x : PyFloat)
    (hu : u = some x) :
    gapFeature u (some (.num rq)) = .ok ((x.sub (.num rq)).divBy rq) := by
  subst hu
  simp [gapFeature, hr]

theorem gapFeature_ok {u t : PVal} (hu : u ≠ Option.none)
    (ht : t ≠ Option.none) : ∃ x, gapFeature u t = .ok x := by
  cases t with
  | none => exact absurd rfl ht
  | some tf =>
    cases tf with
    | nan => exact ⟨.num 0, rfl⟩
    | num r =>
      by_cases hr : 0 < r
      · cases u with
        | none => exact absurd rfl hu
        | some x => exact ⟨(x.sub (.num r)).divBy r, by simp [gapFeature, hr]⟩
      · exact ⟨.num 0, by simp [gapFeature, hr]⟩

theorem dictGet_ne_none {d : MetricDict} (k : String) (dflt : ℚ)
    (h : noNoneVals d = true) : dictGet d k dflt ≠ Option.none := by
  induction d with
  | nil => simp [dictGet, dictLookup]
  | cons kv rest ih =>
    obtain ⟨a, v⟩ := kv
    simp only [noNoneVals, List.all_cons, Bool.and_eq_true] at h
    by_cases hk : k = a
    · simp only [dictGet, dictLookup, hk, if_pos rfl]
      exact Option.isSome_iff_ne_none.mp h.1
    · simp only [dictGet, dictLookup, if_neg hk]
      have := ih (by simpa [noNoneVals] using h.2)
      simpa [dictGet] using this

theorem factorDt_some_ok (m1 : PVal) (d : PyFloat) :
    ∃ f, factorDt m1 (some d) = .ok f := by
  cases m1 with
  | none => exact ⟨1, rfl⟩
  | some mf =>
    cases mf with
    | nan => exact ⟨1, rfl⟩
    | num m =>
      cases d with
      | nan => exact ⟨1, rfl⟩
      | num v => exact ⟨_, rfl⟩

theorem factorRef_some_ok (m2 : PVal) (r : PyFloat) :
    ∃ f, factorRef m2 (some r) = .ok f := by
  cases m2 with
  | none => exact ⟨1, rfl⟩
  | some mf =>
    cases mf with
    | nan => exact ⟨1, rfl⟩
    | num m =>
      by_cases hm : m ≤ 0
      · exact ⟨1, by simp [factorRef, hm]⟩
      · cases r with
        | nan => exact ⟨1, by simp [factorRef, hm]⟩
        | num v => exact ⟨refFactor (v / m), by simp [factorRef, hm]⟩

theorem build_feature_vector_ok_of_noNone (user serp : MetricDict)
    (hu : noNoneVals user = true) (hs : noNoneVals serp = true) :
    ∃ fv, build_feature_vector user serp = .ok fv := by
  obtain ⟨x1, e1⟩ := gapFeature_ok (dictGet_ne_none "domain_trust" 0 hu)
    (dictGet_ne_none "dt" 1 hs)
  obtain ⟨x2, e2⟩ := gapFeature_ok (dictGet_ne_none "referring_domains" 0 hu)
    (dictGet_ne_none "referring_domains" 1 hs)
  obtain ⟨x3, e3⟩ := gapFeature_ok (dictGet_ne_none "word_count" 0 hu)
    (dictGet_ne_none "word_count" 1 hs)
  obtain ⟨x4, e4⟩ := gapFeature_ok (dictGet_ne_none "sentence_count" 0 hu)
    (dictGet_ne_none "sentence_count" 1 hs)
  obtain ⟨x5, e5⟩ := gapFeature_ok
    (dictGet_ne_none "average_words_per_sentence" 0 hu)
    (dictGet_ne_none "average_words_per_sentence" 1 hs)
  obtain ⟨x6, e6⟩ := gapFeature_ok
    (dictGet_ne_none "flesch_reading_ease_score" 0 hu)
    (dictGet_ne_none "flesch_reading_ease_score" 1 hs)
  obtain ⟨x7, e7⟩ := gapFeature_ok (dictGet_ne_none "semantic_topic_score" 0 hu)
    (dictGet_ne_none "semantic_topic_score" 1 hs)
  obtain ⟨x8, e8⟩ := gapFeature_ok (dictGet_ne_none "internal_links" 0 hu)
    (dictGet_ne_none "internal_links" 1 hs)
  obtain ⟨x9, e9⟩ := gapFeature_ok (dictGet_ne_none "total_schema_types" 0 hu)
    (dictGet_ne_none "total_schema_types" 1 hs)
  obtain ⟨x10, e10⟩ := gapFeature_ok (dictGet_ne_none "unique_schema_types" 0 hu)
    (dictGet_ne_none "unique_schema_types" 1 hs)
  obtain ⟨x11, e11⟩ := gapFeature_ok (dictGet_ne_none "rich_result_features" 0 hu)
    (dictGet_ne_none "rich_result_features" 1 hs)
  cases hb : build_feature_vector user serp with
  | error e =>
    simp only [build_feature_vector, e1, e2, e3, e4, e5, e6, e7, e8, e9, e10,
      e11, bind, Except.bind, pure, Except.pure] at hb
    exact Except.noConfusion hb
  | ok fv => exact ⟨fv, rfl⟩

/-- C4 counterexample: a metric key present with value `None` DOES raise.
`build_feature_vector` hits `TypeError` computing `dt_gap` when
`serp_medians == {"dt": None}` (Python `None > 0`), and
`calibrate_rank_probability` hits `TypeError` in `np.isnan(my_dt)` when
`my_dt is None` and the reference authority is a number. -/
theorem none_value_raises_counterexample :
    build_feature_vector [] [("dt", Option.none)] = .error "TypeError"
    ∧ calibrate_rank_probability (some (.num 1)) (some (.num 40))
        (some (.num 30)) Option.none (some (.num 10)) "alpha beta" 0 =
      .error "TypeError" := by
  constructor
  · decide
  · simp [calibrate_rank_probability, factorDt, bind, Except.bind]

/-- C4 amended: zero, NaN and absent-key metric values never raise —
`build_feature_vector` returns normally whenever no stored value is `None`,
and `calibrate_rank_probability` returns normally whenever `my_dt` and
`my_ref` are floats (`raw_prob` and the medians may even be `None`);
NaN authority or backlink values on either side disable the corresponding
factor (1.00).  A value of `None` (key present) is the one edge case that
raises, per the counterexample. -/
theorem numeric_edge_cases_no_raise_amended :
    (∀ user serp : MetricDict, noNoneVals user = true → noNoneVals serp = true →
      ∃ fv, build_feature_vector user serp = .ok fv)
    ∧ (∀ (rp m1 m2 : PVal) (d r : PyFloat) (q : String) (c : ℕ),
      ∃ out, calibrate_rank_probability rp m1 m2 (some d) (some r) q c = .ok out)
    ∧ (∀ m1 : PVal, factorDt m1 (some .nan) = .ok 1)
    ∧ (∀ dv : PVal, factorDt (some .nan) dv = .ok 1)
    ∧ (∀ m2 : PVal, factorRef m2 (some .nan) = .ok 1)
    ∧ (∀ rv : PVal, factorRef (some .nan) rv = .ok 1) := by
  refine ⟨build_feature_vector_ok_of_noNone, ?_, ?_, ?_, ?_, ?_⟩
  · intro rp m1 m2 d r q c
    cases rp with
    | none => exact ⟨0, rfl⟩
    | some pf =>
      cases pf with
      | nan => exact ⟨0, rfl⟩
      | num p =>
        obtain ⟨f1, h1⟩ := factorDt_some_ok m1 d
        obtain ⟨f2, h2⟩ := factorRef_some_ok m2 r
        exact ⟨_, (calibrate_num_ok_iff p m1 m2 (some d) (some r) q c _).mpr
          ⟨f1, f2, h1, h2, rfl⟩⟩
  · intro m1
    cases m1 with
    | none => rfl
    | some mf => cases mf <;> rfl
  · intro dv
    cases dv with
    | none => rfl
    | some df => cases df <;> rfl
  · intro m2
    cases m2 with
    | none => rfl
    | some mf =>
      cases mf with
      | nan => rfl
      | num m => by_cases hm : m ≤ 0 <;> simp [factorRef, hm]
  · intro rv
    cases rv with
    | none => rfl
    | some rf => cases rf <;> rfl

/-- Witness for C4 at concrete edge-case inputs: NaN reference, missing
keys and a NaN raw probability all return normally, and NaN own authority
disables the factor. -/
theorem numeric_edge_cases_no_raise_amended_witness :
    (∃ fv, build_feature_vector [("domain_trust", some (.num 5))]
      [("dt", some .nan)] = .ok fv)
    ∧ (∃ out, calibrate_rank_probability (some .nan) (some (.num 40))
        Option.none (some .nan) (some .nan) "keyword" 0 = .ok out)
    ∧ factorDt (some (.num 40)) (some .nan) = .ok 1 :=
  ⟨numeric_edge_cases_no_raise_amended.1 _ _ (by decide) (by decide),
   numeric_edge_cases_no_raise_amended.2.1 (some .nan) (some (.num 40))
     Option.none .nan .nan "keyword" 0,
   numeric_edge_cases_no_raise_amended.2.2.1 (some (.num 40))⟩

/-- C3 counterexample: with the reference key `"dt"` missing from
`serp_medians`, the reference defaults to 1 (not to the "treated as on
par" path), so `dt_ratio` equals the candidate value 5.0 — not 1.0 as the
claim states for a missing reference. -/
theorem build_feature_vector_missing_reference_counterexample :
    Except.map (fun fv => fv.dt_ratio)
      (build_feature_vector [("domain_trust", some (.num 5))] []) =
      .ok (.num 5)
    ∧ dictLookup "dt" ([] : MetricDict) = Option.none
    ∧ (5 : ℚ) ≠ 1 := by
  refine ⟨?_, rfl, by norm_num⟩
  have hu1 : dictGet [("domain_trust", some (.num 5))] "domain_trust" 0 =
      some (.num 5) := by decide
  have hu2 : dictGet [("domain_trust", some (.num 5))] "referring_domains" 0 =
      some (.num 0) := by decide
  have hu3 : dictGet [("domain_trust", some (.num 5))] "word_count" 0 =
      some (.num 0) := by decide
  have hu4 : dictGet [("domain_trust", some (.num 5))] "sentence_count" 0 =
      some (.num 0) := by decide
  have hu5 : dictGet [("domain_trust", some (.num 5))]
      "average_words_per_sentence" 0 = some (.num 0) := by decide
  have hu6 : dictGet [("domain_trust", some (.num 5))]
      "flesch_reading_ease_score" 0 = some (.num 0) := by decide
  have hu7 : dictGet [("domain_trust", some (.num 5))] "semantic_topic_score" 0
      = some (.num 0) := by decide
  have hu8 : dictGet [("domain_trust", some (.num 5))] "internal_links" 0 =
      some (.num 0) := by decide
  have hu9 : dictGet [("domain_trust", some (.num 5))] "total_schema_types" 0 =
      some (.num 0) := by decide
  have hu10 : dictGet [("domain_trust", some (.num 5))] "unique_schema_types" 0
      = some (.num 0) := by decide
  have hu11 : dictGet [("domain_trust", some (.num 5))] "rich_result_features" 0
      = some (.num 0) := by decide
  have hs : ∀ (k : String) (dflt : ℚ),
      dictGet ([] : MetricDict) k dflt = some (.num dflt) := fun _ _ => rfl
  simp only [build_feature_vector, hu1, hu2, hu3, hu4, hu5, hu6, hu7, hu8, hu9,
    hu10, hu11, hs, gapFeature, safe_ratio, PyFloat.sub, PyFloat.divBy, bind,
    Except.bind, pure, Except.pure, Except.map]
  norm_num

/-- C3 amended: in `build_feature_vector` absent keys are first replaced by
defaults (reference 1, candidate 0), so an absent reference yields
`ratio = candidate`, not 1.0.  A ratio feature equals its default exactly
when the (substituted) reference is `None`, NaN or zero, or the
(substituted) candidate is `None` or NaN; a gap feature equals
`(candidate − reference)/reference` when the reference is a number `> 0`
and 0.0 when it is NaN or a number `≤ 0`; and when every reference value
is `≤ 0` or NaN the vector is returned with no NaN (or infinite) feature. -/
theorem build_feature_vector_defaults_amended :
    (∀ (u t : PVal) (dflt : ℚ),
      (t = Option.none ∨ t = some .nan ∨ t = some (.num 0) ∨
       u = Option.none ∨ u = some .nan) →
      safe_ratio u t dflt = dflt)
    ∧ (∀ (u : PVal) (x : PyFloat) (rq : ℚ), 0 < rq → u = some x →
        gapFeature u (some (.num rq)) = .ok ((x.sub (.num rq)).divBy rq))
    ∧ (∀ (u t : PVal), nonposOrNan t = true → gapFeature u t = .ok (.num 0))
    ∧ (∀ user serp : MetricDict,
        (∀ k ∈ serpMedianKeys, nonposOrNan (dictGet serp k 1) = true) →
        ∃ fv, build_feature_vector user serp = .ok fv ∧ fv.allNum = true) := by
  refine ⟨?_, ?_, fun u t h => gapFeature_nonposOrNan u h, ?_⟩
  · intro u t dflt h
    rcases h with h | h | h | h | h
    · subst h; rfl
    · subst h; rfl
    · subst h; simp [safe_ratio]
    · subst h
      cases t with
      | none => rfl
      | some tf =>
        cases tf with
        | nan => rfl
        | num dv => by_cases hd : dv = 0 <;> simp [safe_ratio, hd]
    · subst h
      cases t with
      | none => rfl
      | some tf =>
        cases tf with
        | nan => rfl
        | num dv => by_cases hd : dv = 0 <;> simp [safe_ratio, hd]
  · intro u x rq hr hu
    exact gapFeature_some_eq hr x hu
  · intro user serp h
    have hmem : ∀ k, k ∈ serpMedianKeys → nonposOrNan (dictGet serp k 1) = true := h
    have h1 := gapFeature_nonposOrNan (dictGet user "domain_trust" 0)
      (hmem "dt" (by decide))
    have h2 := gapFeature_nonposOrNan (dictGet user "referring_domains" 0)
      (hmem "referring_domains" (by decide))
    have h3 := gapFeature_nonposOrNan (dictGet user "word_count" 0)
      (hmem "word_count" (by decide))
    have h4 := gapFeature_nonposOrNan (dictGet user "sentence_count" 0)
      (hmem "sentence_count" (by decide))
    have h5 := gapFeature_nonposOrNan (dictGet user "average_words_per_sentence" 0)
      (hmem "average_words_per_sentence" (by decide))
    have h6 := gapFeature_nonposOrNan (dictGet user "flesch_reading_ease_score" 0)
      (hmem "flesch_reading_ease_score" (by decide))
    have h7 := gapFeature_nonposOrNan (dictGet user "semantic_topic_score" 0)
      (hmem "semantic_topic_score" (by decide))
    have h8 := gapFeature_nonposOrNan (dictGet user "internal_links" 0)
      (hmem "internal_links" (by decide))
    have h9 := gapFeature_nonposOrNan (dictGet user "total_schema_types" 0)
      (hmem "total_schema_types" (by decide))
    have h10 := gapFeature_nonposOrNan (dictGet user "unique_schema_types" 0)
      (hmem "unique_schema_types" (by decide))
    have h11 := gapFeature_nonposOrNan (dictGet user "rich_result_features" 0)
      (hmem "rich_result_features" (by decide))
    cases hb : build_feature_vector user serp with
    | error e =>
      simp only [build_feature_vector, h1, h2, h3, h4, h5, h6, h7, h8, h9, h10,
        h11, bind, Except.bind, pure, Except.pure] at hb
      exact Except.noConfusion hb
    | ok fv =>
      refine ⟨fv, rfl, ?_⟩
      simp only [build_feature_vector, h1, h2, h3, h4, h5, h6, h7, h8, h9, h10,
        h11, bind, Except.bind, pure, Except.pure] at hb
      rw [← Except.ok.inj hb]
      rfl

/-- Witness for C3 at concrete inputs: a zero reference gives ratio 1.0; a
positive reference 2 against candidate 7 gives the gap formula; a NaN
reference gives gap 0.0; and an all-nonpositive reference dict yields a
vector with no NaN features. -/
theorem build_feature_vector_defaults_amended_witness :
    safe_ratio (some (.num 3)) (some (.num 0)) 1 = 1
    ∧ gapFeature (some (.num 7)) (some (.num 2)) =
        .ok (((PyFloat.num 7).sub (.num 2)).divBy 2)
    ∧ gapFeature (some (.num 7)) (some .nan) = .ok (.num 0)
    ∧ (∃ fv, build_feature_vector []
        [("dt", some (.num 0)), ("referring_domains", some (.num 0)),
         ("word_count", some (.num 0)), ("sentence_count", some (.num 0)),
         ("average_words_per_sentence", some (.num 0)),
         ("flesch_reading_ease_score", some (.num 0)),
         ("semantic_topic_score", some (.num 0)),
         ("internal_links", some (.num 0)),
         ("total_schema_types", some (.num 0)),
         ("unique_schema_types", some (.num 0)),
         ("rich_result_features", some (.num 0))] = .ok fv
        ∧ fv.allNum = true) :=
  ⟨build_feature_vector_defaults_amended.1 (some (.num 3)) (some (.num 0)) 1
     (Or.inr (Or.inr (Or.inl rfl))),
   build_feature_vector_defaults_amended.2.1 (some (.num 7)) (.num 7) 2
     (by norm_num) rfl,
   build_feature_vector_defaults_amended.2.2.1 (some (.num 7)) (some .nan) rfl,
   build_feature_vector_defaults_amended.2.2.2 _ _ (by decide)⟩

/-! ## Helper lemmas on count_giant_brands -/

/-- The per-result predicate under which `count_giant_brands` counts a
result: its extracted domain is non-empty and, lower-cased, contains some
denylist entry as a substring. -/
def countsAsGiant (r : SerpResult) : Bool :=
  let d := extract_domain (r.url.getD "")
  decide (d ≠ "") && GIANT_DOMAINS.any (fun g => strContains (strLower d) g)

theorem count_giant_brands_eq_filter (rs : List SerpResult) :
    count_giant_brands rs = (rs.filter countsAsGiant).length := by
  induction rs with
  | nil => rfl
  | cons r rest ih =>
    simp only [count_giant_brands] at ih ⊢
    rw [List.filterMap_cons, List.filter_cons]
    by_cases hd : extract_domain (r.url.getD "") = ""
    · simp only [countsAsGiant, hd, ne_eq, not_true_eq_false]
      simpa using ih
    · by_cases hg : GIANT_DOMAINS.any
        (fun g => strContains (strLower (extract_domain (r.url.getD ""))) g) = true
      · simp [countsAsGiant, hd, hg]
        simpa using ih
      · simp [countsAsGiant, hd, hg]
        simpa using ih

/-- C10: `count_giant_brands` counts, over the whole list, the results
whose extracted lower-cased domain contains a denylist entry as a
substring: the count never exceeds the list length; it equals the number
of results satisfying the per-result predicate (so each result is counted
at most once even when several entries match); a result with a missing URL
is skipped without raising; and a subdomain of a denylisted brand counts
(`support.google.com` contains `google.com`). -/
theorem count_giant_brands_spec :
    (∀ rs : List SerpResult, count_giant_brands rs ≤ rs.length)
    ∧ (∀ rs : List SerpResult,
        count_giant_brands rs = (rs.filter countsAsGiant).length)
    ∧ (∀ rs : List SerpResult,
        count_giant_brands ({ url := Option.none } :: rs) =
          count_giant_brands rs)
    ∧ extract_domain "https://support.google.com/answer" = "support.google.com"
    ∧ count_giant_brands [{ url := some "https://support.google.com/answer" }] = 1 := by
  have h0 : extract_domain "" = "" := by decide
  refine ⟨?_, count_giant_brands_eq_filter, ?_, by decide, by decide⟩
  · intro rs
    rw [count_giant_brands_eq_filter]
    exact le_trans (List.length_filter_le _ _) le_rfl
  · intro rs
    simp [count_giant_brands, List.filterMap_cons, h0]

end RankPredict
